import Mathlib

/-!
Verification of the client-side Task Progress Coordinator of the
Product-Importer web application, as implemented in
`app/static/js/upload.js` (the current revision of that file) and the
delete-all confirmation logic of `app/static/js/app.js`.

The JavaScript is shallowly embedded: DOM nodes are modelled by the
values written into them, JS numbers by `Int`, nullable strings by
`Option String`, and the browser event loop by an explicit event type
and a step function over an application-state record.  Presentation
formatting that no property depends on (HTML markup, console logging,
toast text) is abstracted to the rendered data.
-/

namespace ProductImporter

/-- JavaScript truthiness of a nullable string: `null`/`undefined` and
the empty string are falsy, every other string is truthy. -/
def jsTruthyStr (o : Option String) : Bool :=
  match o with
  | none => false
  | some s => !(s == "")

/-- A JS error object as inspected by `displayErrors` in upload.js:
the handler reads the fields `batch_error`, `error` and `row`
(each possibly absent). -/
structure JsErrObj where
  batch_error : Option String := none
  error : Option String := none
  row : Option Int := none
deriving DecidableEq, Repr

/-- One element of an `errors` array handed to `displayErrors`: a JS
object, a plain string, or any other JS value (number, null, ...). -/
inductive ErrVal where
  | obj (o : JsErrObj)
  | str (s : String)
  | otherVal
deriving DecidableEq, Repr

/-- The per-record display text chosen inside `displayErrors`
(upload.js lines 411-423): `err.batch_error` (truthy) renders as a
System message, else a truthy `err.error` renders with `Row r` when
`err.row !== undefined` and `Processing` otherwise, else a string
renders as `Error: ...`, and anything else as an unknown error. -/
def renderErr (e : ErrVal) : String :=
  match e with
  | .obj o =>
    if jsTruthyStr o.batch_error then
      "System: " ++ o.batch_error.getD ""
    else if jsTruthyStr o.error then
      match o.row with
      | some r => "Row " ++ toString r ++ ": " ++ o.error.getD ""
      | none => "Processing: " ++ o.error.getD ""
    else
      "Unknown error occurred"
  | .str s => "Error: " ++ s
  | .otherVal => "Unknown error occurred"

/-- The contents of the `upload-errors` DOM container: the list of
rendered detailed error items, and the count shown by the trailing
`... and N more errors` item when present. -/
structure ErrDisplay where
  items : List String := []
  remainder : Option Nat := none
deriving DecidableEq, Repr

/-- `displayErrors` (upload.js lines 406-429).  Guarded by
`currentUploadTaskId && errors && errors.length > 0`; when the guard
holds it overwrites `uploadErrors.innerHTML` with the renderings of
`errors.slice(0, 10)` and, if more than 10 errors were carried,
appends a remainder item counting `errors.length - 10`. -/
def displayErrors (currentUploadTaskId : Option String) (errors : List ErrVal)
    (d : ErrDisplay) : ErrDisplay :=
  if jsTruthyStr currentUploadTaskId ∧ errors.length > 0 then
    { items := (errors.take 10).map renderErr
      remainder := if errors.length > 10 then some (errors.length - 10) else none }
  else d

/-- The values rendered into the progress-bar DOM nodes
(`progress-fill` width, `progress-text`, `progress-details`). -/
structure Display where
  progress : Int := 0
  processed : Int := 0
  total : Int := 0
deriving DecidableEq, Repr

/-- `updateProgress` (upload.js lines 396-404): unconditionally writes
the three arguments into the three progress DOM nodes. -/
def updateProgress (progress processed total : Int) (_d : Display) : Display :=
  { progress := progress, processed := processed, total := total }

/-- The shape of a polled `/upload/task/{id}` response body
(upload.js lines 360-366): `errors` is a nullable string. -/
structure TaskStatus where
  status : String
  progress : Int
  processed_rows : Int
  total_rows : Int
  errors : Option String := none
deriving DecidableEq, Repr

/-- `task.status === 'completed' || task.status === 'failed'`
(upload.js line 377). -/
def isTerminal (t : TaskStatus) : Bool :=
  t.status == "completed" || t.status == "failed"

/-- The error-handling block of a poll tick (upload.js lines 368-375):
`if (task.errors) { try { displayErrors(JSON.parse(task.errors)) }
catch (e) { /* ignore */ } }`.  `JSON.parse` is supplied by the
environment and is modelled by the `parse` parameter; a parse failure
(`parse s = none`) is caught and leaves the display untouched. -/
def pollHandleErrors (parse : String → Option (List ErrVal))
    (currentUploadTaskId : Option String) (errs : Option String)
    (d : ErrDisplay) : ErrDisplay :=
  if jsTruthyStr errs then
    match parse (errs.getD "") with
    | some errors => displayErrors currentUploadTaskId errors d
    | none => d
  else d

/-! ### WebSocket and event-loop model for upload.js -/

/-- `WebSocket.readyState`. -/
inductive ReadyState where
  | connecting
  | opened
  | closing
  | closed
deriving DecidableEq, Repr

/-- The WebSocket object created by `connectWebSocket`.
`requestedCode` records the (optional) status code of the first
effective client `close(...)` call: `some none` for a code-less
`close()`, `some (some c)` for `close(c, ...)`. -/
structure WSock where
  state : ReadyState := .connecting
  requestedCode : Option (Option Nat) := none
deriving DecidableEq, Repr

/-- `WebSocket.close(code?)` per the WHATWG algorithm: when the socket
is already CLOSING or CLOSED the call does nothing; otherwise it
starts the closing handshake with the given (optional) code. -/
def wsClose (code : Option Nat) (w : WSock) : WSock :=
  match w.state with
  | .closing => w
  | .closed => w
  | _ => { state := .closing, requestedCode := some code }

/-- The status code the `close` event reports.  For a client-initiated
close the code of the close frame is echoed back: `close(c)` yields
`c`, and a code-less `close()` sends a close frame without a status
code, reported as 1005 (RFC 6455 section 7.1.5).  For a close not
initiated by the client (server close, transport failure) the
environment supplies the code `envCode` (e.g. 1006 after an error). -/
def closeEventCode (w : WSock) (envCode : Nat) : Nat :=
  match w.requestedCode with
  | some c => c.getD 1005
  | none => envCode

/-- The mutable state of the upload page: the globals
`currentUploadTaskId` and `uploadWebSocket`, the underlying socket
object (which outlives the global reference and still fires its
handlers after `uploadWebSocket = null`), the number of polling
intervals currently scheduled by `pollUploadStatus`, the progress and
error displays, the `upload-result` contents, and the list of
`handleUploadComplete` invocations so far. -/
structure AppState where
  currentUploadTaskId : Option String := none
  wsVarSet : Bool := false
  sock : Option WSock := none
  pollLoops : Nat := 0
  display : Display := {}
  errDisplay : ErrDisplay := {}
  uploadResult : Option (Bool × String) := none
  completions : List (Bool × String) := []
deriving DecidableEq, Repr

/-- `pollUploadStatus(taskId)` (upload.js lines 354-394) schedules a
fresh `setInterval` loop; only the scheduling is modelled here, the
body of a tick is `pollTickStep`. -/
def startPolling (s : AppState) : AppState :=
  { s with pollLoops := s.pollLoops + 1 }

/-- `handleUploadComplete(success, message)` (upload.js lines
431-519): closes the WebSocket with code 1000 if the global still
references one and nulls the global, clears the error display,
renders the result (HTML formatting of the failure message
abstracted to the `(success, message)` pair), records the invocation,
and finally nulls `currentUploadTaskId`. -/
def handleUploadComplete (success : Bool) (message : String) (s : AppState) : AppState :=
  let sock := if s.wsVarSet then s.sock.map (wsClose (some 1000)) else s.sock
  { s with
    sock := sock
    wsVarSet := false
    errDisplay := {}
    uploadResult := some (success, message)
    completions := s.completions ++ [(success, message)]
    currentUploadTaskId := none }

/-- A frame received on the WebSocket, after `JSON.parse(event.data)`:
the `type` discriminator is one of `connected`, `progress`,
`complete`, `pong`; anything else falls through every branch. -/
inductive Frame where
  | connected (task_id : String)
  | progress (progress processed total : Int) (errors : Option (List ErrVal))
  | complete (success : Bool) (message : String)
  | pong
  | otherFrame
deriving DecidableEq, Repr

/-- The `onmessage` handler (upload.js lines 309-326): a `progress`
frame updates the progress display and, when `data.errors &&
data.errors.length > 0`, the error display; a `complete` frame calls
`handleUploadComplete`; `connected` and `pong` frames only log. -/
def onmessageHandler (f : Frame) (s : AppState) : AppState :=
  match f with
  | .connected _ => s
  | .progress p pr t errs =>
    let s := { s with display := updateProgress p pr t s.display }
    match errs with
    | some es =>
      if es.length > 0 then
        { s with errDisplay := displayErrors s.currentUploadTaskId es s.errDisplay }
      else s
    | none => s
  | .complete success message => handleUploadComplete success message s
  | .pong => s
  | .otherFrame => s

/-- The `onerror` handler (upload.js lines 328-333): logs, shows a
toast, and falls back to polling. -/
def onerrorHandler (s : AppState) : AppState :=
  startPolling s

/-- The `onclose` handler (upload.js lines 335-342): starts polling
unless the close event carries the normal closure code 1000. -/
def oncloseHandler (code : Nat) (s : AppState) : AppState :=
  if code ≠ 1000 then startPolling s else s

/-- The body of one tick of a `pollUploadStatus` interval with fetched
status `t` (upload.js lines 356-392): update the progress display,
run the error-handling block, and on terminal status clear this
tick's own interval, `close()` the WebSocket if the global still
references one, and call `handleUploadComplete` with the message
built from the status (`task.errors || 'Upload failed'` on
failure). -/
def pollTickStep (parse : String → Option (List ErrVal)) (t : TaskStatus)
    (s : AppState) : AppState :=
  let s := { s with display := updateProgress t.progress t.processed_rows t.total_rows s.display }
  let s := { s with
    errDisplay := pollHandleErrors parse s.currentUploadTaskId t.errors s.errDisplay }
  if isTerminal t then
    let s := { s with pollLoops := s.pollLoops - 1 }
    let s := if s.wsVarSet then { s with sock := s.sock.map (wsClose none) } else s
    handleUploadComplete (t.status == "completed")
      (if t.status == "completed" then
        "Successfully processed " ++ toString t.processed_rows ++ " products"
      else if jsTruthyStr t.errors then t.errors.getD "" else "Upload failed") s
  else s

/-- An occurrence on the browser event loop: the socket finishing its
connection handshake, a message arriving, a transport error, the
socket's `close` event (with the environment-chosen code for closes
the client did not initiate), or one tick of a scheduled polling
interval firing with the fetched status. -/
inductive Ev where
  | wsOpenEv
  | wsMessage (f : Frame)
  | wsError
  | wsCloseEv (envCode : Nat)
  | pollTick (t : TaskStatus)
deriving Repr

/-- One step of the event loop.  Message events are delivered only
while the socket is OPEN; the `close` event fires once on the socket
object (which still fires even after `uploadWebSocket = null`) and
removes it; a polling tick fires only while at least one interval is
scheduled. -/
def step (parse : String → Option (List ErrVal)) (s : AppState) (e : Ev) : AppState :=
  match e with
  | .wsOpenEv =>
    match s.sock with
    | some w =>
      if w.state = .connecting then { s with sock := some { w with state := .opened } } else s
    | none => s
  | .wsMessage f =>
    match s.sock with
    | some w => if w.state = .opened then onmessageHandler f s else s
    | none => s
  | .wsError =>
    match s.sock with
    | some _ => onerrorHandler s
    | none => s
  | .wsCloseEv envCode =>
    match s.sock with
    | some w => oncloseHandler (closeEventCode w envCode) { s with sock := none }
    | none => s
  | .pollTick t =>
    if s.pollLoops = 0 then s else pollTickStep parse t s

/-- Run the event loop over a sequence of occurrences. -/
def run (parse : String → Option (List ErrVal)) (s : AppState) (evs : List Ev) : AppState :=
  evs.foldl (step parse) s

/-! ### Upload submission (upload.js lines 256-296, 298-352) -/

/-- The outcome of `fetch(API_BASE + '/upload', ...)` as observed by
`handleFileUpload`: a 2xx response carrying `{task_id}`, a non-2xx
response whose JSON body may carry a `detail` field, or a thrown
network error. -/
inductive UploadResponse where
  | okResp (task_id : String)
  | errResp (detail : Option String)
  | netError (msg : String)
deriving DecidableEq, Repr

/-- `connectWebSocket(taskId)` (upload.js lines 298-352): assigns a
fresh WebSocket (initially CONNECTING) to the `uploadWebSocket`
global and attaches the handlers modelled in `step`.  The 30-second
keepalive ping interval only sends traffic and is not modelled. -/
def connectWebSocket (s : AppState) : AppState :=
  { s with sock := some {}, wsVarSet := true }

/-- `handleFileUpload` (upload.js lines 256-296), from the UI reset
onward: resets the displays, submits the upload, and on a 2xx
response records the task id and opens the WebSocket (no polling is
started at submission in this revision); a non-2xx response throws
`error.detail || 'Upload failed'` and a network error throws its own
message, both landing in the catch block that renders the failure
into `upload-result` before the function returns. -/
def handleFileUpload (r : UploadResponse) : AppState :=
  let s : AppState := { display := updateProgress 0 0 0 {} }
  match r with
  | .okResp task_id =>
    connectWebSocket { s with currentUploadTaskId := some task_id }
  | .errResp detail =>
    let msg := if jsTruthyStr detail then detail.getD "" else "Upload failed"
    { s with uploadResult := some (false, "Upload failed: " ++ msg) }
  | .netError msg =>
    { s with uploadResult := some (false, "Upload failed: " ++ msg) }

/-! ### Delete-all confirmation (app.js lines 364-401) -/

/-- `onDeleteAllInput` (app.js lines 364-368): the disabled state it
assigns to the confirm button, `((value || '').trim()) !== 'DELETE'`.
JS `String.prototype.trim` is modelled by Lean's `String.trim`
(ASCII whitespace stripping at both ends). -/
def onDeleteAllInput (value : Option String) : Bool :=
  !((value.getD "").trim == "DELETE")

/-- `performDeleteAll` (app.js lines 370-401), reduced to whether the
`DELETE /products/delete-all` request is issued: the function returns
without fetching unless `(input || '').trim() === 'DELETE'`. -/
def performDeleteAll (input : Option String) : Bool :=
  if !((input.getD "").trim == "DELETE") then false else true

/-! ### Theorems -/

/-- C3 counterexample: `updateProgress` performs no staleness check —
after the display shows 50%, an update carrying 40% lowers the
displayed percentage, contradicting the claim that lower updates are
ignored and the displayed value never decreases. -/
theorem c3_progress_decreases_counterexample :
    (updateProgress 40 200 500 (updateProgress 50 180 500 {})).progress
      < (updateProgress 50 180 500 ({} : Display)).progress := by
  decide

/-- C3 (amended): while processing, the displayed progress is
last-write-wins, not monotone — an update whose progress value is
lower than the currently displayed one is applied as-is, so the
displayed percentage becomes the update's value and decreases. -/
theorem c3_last_write_wins_progress (d : Display) (p₁ pr₁ t₁ p₂ pr₂ t₂ : Int)
    (h : p₂ < p₁) :
    (updateProgress p₂ pr₂ t₂ (updateProgress p₁ pr₁ t₁ d)).progress = p₂ ∧
    (updateProgress p₂ pr₂ t₂ (updateProgress p₁ pr₁ t₁ d)).progress
      < (updateProgress p₁ pr₁ t₁ d).progress := by
  exact ⟨rfl, h⟩

/-- Witness for C3 (amended) at concrete inputs 50% then 40%. -/
theorem c3_last_write_wins_progress_witness :
    (updateProgress 40 200 500 (updateProgress 50 180 500 {})).progress = 40 ∧
    (updateProgress 40 200 500 (updateProgress 50 180 500 {})).progress
      < (updateProgress 50 180 500 ({} : Display)).progress :=
  c3_last_write_wins_progress {} 50 180 500 40 200 500 (by decide)

/-- C4: after applying a progress event E — whether a streaming
`progress` frame delivered on an open socket, or a polled status on an
active polling loop, from any reachable state — the displayed
processed/total/progress equal exactly E's carried values
(last-write-wins, no combination with previously applied events). -/
theorem c4_display_last_write_wins (parse : String → Option (List ErrVal))
    (s : AppState) (p pr t : Int) (errs : Option (List ErrVal)) (tk : TaskStatus) :
    (∀ w, s.sock = some w → w.state = .opened →
      (step parse s (.wsMessage (.progress p pr t errs))).display
        = { progress := p, processed := pr, total := t }) ∧
    (0 < s.pollLoops →
      (step parse s (.pollTick tk)).display
        = { progress := tk.progress, processed := tk.processed_rows,
            total := tk.total_rows }) := by
  constructor
  · intro w hw hst
    simp only [step, hw, hst, if_pos rfl, onmessageHandler]
    cases errs with
    | none => rfl
    | some es => by_cases h : es.length > 0 <;> simp [h, updateProgress]
  · intro h
    have h0 : s.pollLoops ≠ 0 := by omega
    simp only [step, if_neg h0, pollTickStep]
    split
    · simp only [handleUploadComplete, updateProgress]
      split <;> rfl
    · rfl

/-- Witness for C4 at a concrete open-socket state and a concrete
polling state. -/
theorem c4_display_last_write_wins_witness :
    (step (fun _ => none)
        { sock := some { state := .opened }, wsVarSet := true }
        (.wsMessage (.progress 40 200 500 none))).display
      = { progress := 40, processed := 200, total := 500 } ∧
    (step (fun _ => none) { pollLoops := 1 }
        (.pollTick { status := "processing", progress := 50, processed_rows := 250,
                     total_rows := 500 })).display
      = { progress := 50, processed := 250, total := 500 } :=
  ⟨(c4_display_last_write_wins (fun _ => none)
      { sock := some { state := .opened }, wsVarSet := true } 40 200 500 none
      { status := "processing", progress := 50, processed_rows := 250,
        total_rows := 500 }).1 _ rfl rfl,
   (c4_display_last_write_wins (fun _ => none) { pollLoops := 1 } 40 200 500 none
      { status := "processing", progress := 50, processed_rows := 250,
        total_rows := 500 }).2 (by decide)⟩

/-- C6: with an active task and a nonempty error list, the error
display shows at most 10 detailed records, exactly the renderings of
the first 10 recorded errors in their original order, and when N > 10
errors were carried the rendered remainder count is exactly N − 10. -/
theorem c6_error_cap (tid : Option String) (errors : List ErrVal) (d : ErrDisplay)
    (htid : jsTruthyStr tid = true) (hne : errors.length > 0) :
    (displayErrors tid errors d).items.length ≤ 10 ∧
    (displayErrors tid errors d).items = (errors.take 10).map renderErr ∧
    (errors.length > 10 →
      (displayErrors tid errors d).remainder = some (errors.length - 10)) := by
  have hg : jsTruthyStr tid = true ∧ errors.length > 0 := ⟨htid, hne⟩
  unfold displayErrors
  rw [if_pos hg]
  refine ⟨?_, rfl, ?_⟩
  · simp only [List.length_map, List.length_take]
    omega
  · intro h
    simp only []
    rw [if_pos h]

/-- Witness for C6 with 12 concrete errors: 10 detailed items and a
remainder count of 2. -/
theorem c6_error_cap_witness :
    (displayErrors (some "t1")
        [.str "e1", .str "e2", .str "e3", .str "e4", .str "e5", .str "e6",
         .str "e7", .str "e8", .str "e9", .str "e10", .str "e11", .str "e12"]
        {}).items.length ≤ 10 ∧
    (displayErrors (some "t1")
        [.str "e1", .str "e2", .str "e3", .str "e4", .str "e5", .str "e6",
         .str "e7", .str "e8", .str "e9", .str "e10", .str "e11", .str "e12"]
        {}).items =
      ([.str "e1", .str "e2", .str "e3", .str "e4", .str "e5", .str "e6",
        .str "e7", .str "e8", .str "e9", .str "e10", .str "e11",
        .str "e12"].take 10).map renderErr ∧
    ((12 : Nat) > 10 →
      (displayErrors (some "t1")
        [.str "e1", .str "e2", .str "e3", .str "e4", .str "e5", .str "e6",
         .str "e7", .str "e8", .str "e9", .str "e10", .str "e11", .str "e12"]
        {}).remainder = some (12 - 10)) := by
  have h := c6_error_cap (some "t1")
    [.str "e1", .str "e2", .str "e3", .str "e4", .str "e5", .str "e6",
     .str "e7", .str "e8", .str "e9", .str "e10", .str "e11", .str "e12"]
    {} (by decide) (by decide)
  exact ⟨h.1, h.2.1, fun _ => h.2.2 (by decide)⟩

/-- C7 counterexample: `displayErrors` overwrites the error container
wholesale — after a call carrying errors "a","b", a later call
carrying only "c" leaves a display containing only the rendering of
"c": the previously shown record for "a" has been removed, so the
display is not additive. -/
theorem c7_replacement_counterexample :
    (displayErrors (some "t1") [.str "c"]
        (displayErrors (some "t1") [.str "a", .str "b"] {})).items = ["Error: c"] ∧
    "Error: a" ∈ (displayErrors (some "t1") [.str "a", .str "b"] {}).items ∧
    "Error: a" ∉ (displayErrors (some "t1") [.str "c"]
        (displayErrors (some "t1") [.str "a", .str "b"] {})).items := by
  refine ⟨rfl, ?_, ?_⟩ <;> simp [displayErrors, jsTruthyStr, renderErr]

/-- C7 (amended): each `displayErrors` call replaces the shown records
with renderings of exactly the errors it carries — the result is
independent of whatever was previously displayed, so prior records
persist only if the (cumulative) later list still contains them. -/
theorem c7_display_replacement (tid : Option String) (errors : List ErrVal)
    (d d' : ErrDisplay) (htid : jsTruthyStr tid = true) (hne : errors.length > 0) :
    displayErrors tid errors d = displayErrors tid errors d' := by
  simp [displayErrors, if_pos (And.intro htid hne)]

/-- Witness for C7 (amended): a call carrying one error renders the
same display whether the prior display was empty or held two records. -/
theorem c7_display_replacement_witness :
    displayErrors (some "t1") [.str "c"]
        (displayErrors (some "t1") [.str "a", .str "b"] {})
      = displayErrors (some "t1") [.str "c"] {} :=
  c7_display_replacement (some "t1") [.str "c"]
    (displayErrors (some "t1") [.str "a", .str "b"] {}) {} (by decide) (by decide)

/-- C8 counterexample: when the polled `errors` string fails
structured decoding, the error-handling block leaves the display
untouched (the catch block ignores the failure) — the raw string is
not surfaced as a batch-level error record, contradicting the claimed
fallback. -/
theorem c8_parse_failure_counterexample :
    pollHandleErrors (fun _ => none) (some "t1") (some "not json") {}
      = ({} : ErrDisplay) ∧
    (pollHandleErrors (fun _ => none) (some "t1") (some "not json") {}).items = [] := by
  exact ⟨rfl, rfl⟩

/-- C8 (amended): a polled `errors` string that fails structured
decoding is silently ignored — the error display is left unchanged
and nothing is surfaced — while the decode failure does not abort the
poll loop: a non-terminal tick carrying the undecodable string leaves
the polling interval scheduled and only the progress display updated. -/
theorem c8_parse_failure_ignored (parse : String → Option (List ErrVal))
    (tid : Option String) (errStr : String) (d : ErrDisplay)
    (hfail : parse errStr = none) :
    pollHandleErrors parse tid (some errStr) d = d ∧
    ∀ (s : AppState) (t : TaskStatus), t.errors = some errStr →
      s.pollLoops = 1 → isTerminal t = false →
      (step parse s (.pollTick t)).pollLoops = 1 ∧
      (step parse s (.pollTick t)).errDisplay = s.errDisplay := by
  have hph : ∀ d' : ErrDisplay, pollHandleErrors parse tid (some errStr) d' = d' := by
    intro d'
    by_cases h : jsTruthyStr (some errStr) = true <;>
      simp [pollHandleErrors, h, hfail]
  refine ⟨hph d, ?_⟩
  intro s t herr hloops hterm
  have h0 : s.pollLoops ≠ 0 := by omega
  have hph' : ∀ (tid' : Option String) (d' : ErrDisplay),
      pollHandleErrors parse tid' (some errStr) d' = d' := by
    intro tid' d'
    by_cases h : jsTruthyStr (some errStr) = true <;>
      simp [pollHandleErrors, h, hfail]
  constructor <;> simp [step, h0, pollTickStep, herr, hterm, hph', hloops]

/-- Witness for C8 (amended) with a concrete always-failing parse, a
concrete undecodable string, and a concrete processing-status tick. -/
theorem c8_parse_failure_ignored_witness :
    pollHandleErrors (fun _ => none) (some "t1") (some "not json") {} = ({} : ErrDisplay) ∧
    (step (fun _ => none) { pollLoops := 1 }
        (.pollTick { status := "processing", progress := 50, processed_rows := 250,
                     total_rows := 500, errors := some "not json" })).pollLoops = 1 ∧
    (step (fun _ => none) { pollLoops := 1 }
        (.pollTick { status := "processing", progress := 50, processed_rows := 250,
                     total_rows := 500, errors := some "not json" })).errDisplay
      = ({} : AppState).errDisplay := by
  have h := c8_parse_failure_ignored (fun _ => none) (some "t1") "not json" {} rfl
  have h2 := h.2 { pollLoops := 1 }
    { status := "processing", progress := 50, processed_rows := 250,
      total_rows := 500, errors := some "not json" } rfl rfl (by decide)
  exact ⟨h.1, h2.1, h2.2⟩

/-- Whether an event loop occurrence carries a terminal notification:
a `complete` frame on the streaming channel, or a polled status in
{completed, failed}. -/
def terminalEv : Ev → Bool
  | .wsMessage (.complete _ _) => true
  | .pollTick t => isTerminal t
  | _ => false

theorem completions_step_le (parse : String → Option (List ErrVal))
    (s : AppState) (e : Ev) :
    (step parse s e).completions.length ≤
      s.completions.length + (if terminalEv e then 1 else 0) := by
  cases e with
  | wsOpenEv =>
    cases hs : s.sock with
    | none => simp [step, hs, terminalEv]
    | some w =>
      by_cases hc : w.state = .connecting <;> simp [step, hs, hc, terminalEv]
  | wsMessage f =>
    cases hs : s.sock with
    | none => simp [step, hs, terminalEv]
    | some w =>
      by_cases ho : w.state = .opened
      · cases f with
        | connected tid => simp [step, hs, ho, onmessageHandler, terminalEv]
        | progress p pr t errs =>
          cases errs with
          | none => simp [step, hs, ho, onmessageHandler, terminalEv]
          | some es =>
            by_cases hl : 0 < es.length <;>
              simp [step, hs, ho, onmessageHandler, terminalEv, hl]
        | complete b m =>
          simp [step, hs, ho, onmessageHandler, handleUploadComplete, terminalEv]
        | pong => simp [step, hs, ho, onmessageHandler, terminalEv]
        | otherFrame => simp [step, hs, ho, onmessageHandler, terminalEv]
      · cases f <;> simp [step, hs, ho, terminalEv]
  | wsError =>
    cases hs : s.sock <;> simp [step, hs, onerrorHandler, startPolling, terminalEv]
  | wsCloseEv envCode =>
    cases hs : s.sock with
    | none => simp [step, hs, terminalEv]
    | some w =>
      by_cases hc : closeEventCode w envCode = 1000 <;>
        simp [step, hs, oncloseHandler, hc, startPolling, terminalEv]
  | pollTick t =>
    by_cases h0 : s.pollLoops = 0
    · simp [step, h0, terminalEv]
    · by_cases ht : isTerminal t = true
      · simp only [step, if_neg h0, pollTickStep, if_pos ht, handleUploadComplete,
          terminalEv, ht, if_true]
        split <;> simp
      · simp [step, h0, pollTickStep, ht, terminalEv]

/-- C1 counterexample: `handleUploadComplete` has no per-task
idempotency guard.  A WebSocket transport failure fires both the
`onerror` handler and the abnormal-close handler (close code 1006),
each of which starts a polling loop; each loop's terminal observation
then invokes the completion handler, so a single task produces two
completion invocations — the claim's at-most-once property fails. -/
theorem c1_double_completion_counterexample :
    (run (fun _ => none) (handleFileUpload (.okResp "t1"))
      [.wsOpenEv, .wsError, .wsCloseEv 1006,
       .pollTick { status := "completed", progress := 100, processed_rows := 500,
                   total_rows := 500 },
       .pollTick { status := "completed", progress := 100, processed_rows := 500,
                   total_rows := 500 }]).completions
      = [(true, "Successfully processed 500 products"),
         (true, "Successfully processed 500 products")] := by
  rfl

/-- C1 (amended): the completion handler is invoked at most once per
terminal delivery that reaches it — not at most once per task: over
any event sequence from any state, the number of completion
invocations grows by at most the number of terminal-bearing events
(streaming `complete` frames and polled terminal statuses) in the
sequence, and duplicate terminal deliveries each invoke the handler
again. -/
theorem c1_completions_bounded_by_terminal_deliveries
    (parse : String → Option (List ErrVal)) (s : AppState) (evs : List Ev) :
    (run parse s evs).completions.length ≤
      s.completions.length + evs.countP (fun e => terminalEv e) := by
  induction evs generalizing s with
  | nil => simp [run]
  | cons e rest ih =>
    have h1 := completions_step_le parse s e
    have h2 := ih (step parse s e)
    have h3 : run parse s (e :: rest) = run parse (step parse s e) rest := by
      simp [run]
    rw [h3, List.countP_cons]
    omega

/-- C2: the streaming channel's close handler starts the polling
fallback exactly for non-normal closure codes — a close event with
the normal code 1000 leaves the state untouched (no polling loop
started), a close event with any other code before a terminal event
has been handled starts a polling loop, and a transport error
(the `onerror` handler) also starts a polling loop. -/
theorem c2_close_fallback (s : AppState) (code : Nat) :
    (code = 1000 → oncloseHandler code s = s) ∧
    (code ≠ 1000 → s.completions = [] →
      (oncloseHandler code s).pollLoops = s.pollLoops + 1) ∧
    (onerrorHandler s).pollLoops = s.pollLoops + 1 := by
  refine ⟨?_, ?_, rfl⟩
  · intro h
    simp [oncloseHandler, h]
  · intro h _
    simp [oncloseHandler, h, startPolling]

/-- Witness for C2: normal close 1000 on the initial state starts no
polling; abnormal close 1006 and a transport error each start one. -/
theorem c2_close_fallback_witness :
    oncloseHandler 1000 {} = ({} : AppState) ∧
    (oncloseHandler 1006 {}).pollLoops = ({} : AppState).pollLoops + 1 ∧
    (onerrorHandler {}).pollLoops = ({} : AppState).pollLoops + 1 :=
  ⟨(c2_close_fallback {} 1000).1 rfl,
   (c2_close_fallback {} 1006).2.1 (by decide) rfl,
   (c2_close_fallback {} 1006).2.2⟩

/-- C5 counterexample: on its terminal observation the polling loop
closes the still-open streaming socket with a code-less `close()` —
the socket's recorded close request is `some none`, not the normal
code 1000 (the completion handler's later `close(1000)` is discarded
because the socket is already CLOSING) — and the subsequent close
event therefore reports the no-status code 1005, whose handler starts
a second polling loop after the terminal handling. -/
theorem c5_codeless_close_counterexample :
    (run (fun _ => none) (handleFileUpload (.okResp "t1"))
        [.wsOpenEv, .wsError,
         .pollTick { status := "completed", progress := 100, processed_rows := 500,
                     total_rows := 500 }]).sock
      = some { state := .closing, requestedCode := some none } ∧
    (run (fun _ => none) (handleFileUpload (.okResp "t1"))
        [.wsOpenEv, .wsError,
         .pollTick { status := "completed", progress := 100, processed_rows := 500,
                     total_rows := 500 }]).pollLoops = 0 ∧
    (run (fun _ => none) (handleFileUpload (.okResp "t1"))
        [.wsOpenEv, .wsError,
         .pollTick { status := "completed", progress := 100, processed_rows := 500,
                     total_rows := 500 },
         .wsCloseEv 1006]).pollLoops = 1 := by
  exact ⟨rfl, rfl, rfl⟩

/-- C5 (amended): on observing a terminal status the polling loop
emits exactly one complete event and stops its own interval, and it
closes a still-open streaming socket — but with a code-less `close()`
rather than the normal closure code, so the streaming channel's close
event reports the no-status code 1005 and its handler does start a
second polling loop. -/
theorem c5_poll_terminal_behavior (parse : String → Option (List ErrVal))
    (s : AppState) (t : TaskStatus) (w : WSock) (envCode : Nat)
    (hterm : isTerminal t = true) (hloops : s.pollLoops = 1)
    (hvar : s.wsVarSet = true) (hsock : s.sock = some w) (hst : w.state = .opened) :
    (step parse s (.pollTick t)).completions.length = s.completions.length + 1 ∧
    (step parse s (.pollTick t)).pollLoops = 0 ∧
    (step parse s (.pollTick t)).sock
      = some { state := .closing, requestedCode := some none } ∧
    (step parse (step parse s (.pollTick t)) (.wsCloseEv envCode)).pollLoops = 1 := by
  have h0 : s.pollLoops ≠ 0 := by omega
  simp [step, h0, pollTickStep, hterm, hvar, hsock, handleUploadComplete,
    wsClose, hst, hloops, oncloseHandler, closeEventCode, startPolling]

/-- Witness for C5 (amended) at the concrete state reached by a
tracked upload whose socket opened and then suffered one transport
error, polled with a concrete completed status. -/
theorem c5_poll_terminal_behavior_witness :
    (step (fun _ => none)
        (run (fun _ => none) (handleFileUpload (.okResp "t1")) [.wsOpenEv, .wsError])
        (.pollTick { status := "completed", progress := 100, processed_rows := 500,
                     total_rows := 500 })).completions.length
      = (run (fun _ => none) (handleFileUpload (.okResp "t1"))
          [.wsOpenEv, .wsError]).completions.length + 1 ∧
    (step (fun _ => none)
        (run (fun _ => none) (handleFileUpload (.okResp "t1")) [.wsOpenEv, .wsError])
        (.pollTick { status := "completed", progress := 100, processed_rows := 500,
                     total_rows := 500 })).pollLoops = 0 ∧
    (step (fun _ => none)
        (run (fun _ => none) (handleFileUpload (.okResp "t1")) [.wsOpenEv, .wsError])
        (.pollTick { status := "completed", progress := 100, processed_rows := 500,
                     total_rows := 500 })).sock
      = some { state := .closing, requestedCode := some none } ∧
    (step (fun _ => none)
        (step (fun _ => none)
          (run (fun _ => none) (handleFileUpload (.okResp "t1")) [.wsOpenEv, .wsError])
          (.pollTick { status := "completed", progress := 100, processed_rows := 500,
                       total_rows := 500 }))
        (.wsCloseEv 1006)).pollLoops = 1 :=
  c5_poll_terminal_behavior (fun _ => none)
    (run (fun _ => none) (handleFileUpload (.okResp "t1")) [.wsOpenEv, .wsError])
    { status := "completed", progress := 100, processed_rows := 500, total_rows := 500 }
    { state := .opened } 1006 (by decide) rfl rfl rfl rfl

/-- C9: a job submission rejected before a task id exists — a non-2xx
response or a thrown network error — renders the failure into the
result container within the same call, and starts no tracking: no
WebSocket is created, the `uploadWebSocket` global stays null, no
polling loop is scheduled, and no task id is recorded. -/
theorem c9_rejected_submission (r : UploadResponse)
    (h : ∀ tid, r ≠ .okResp tid) :
    (handleFileUpload r).sock = none ∧
    (handleFileUpload r).wsVarSet = false ∧
    (handleFileUpload r).pollLoops = 0 ∧
    (handleFileUpload r).currentUploadTaskId = none ∧
    ∃ m, (handleFileUpload r).uploadResult = some (false, "Upload failed: " ++ m) := by
  cases r with
  | okResp tid => exact absurd rfl (h tid)
  | errResp detail =>
    refine ⟨rfl, rfl, rfl, rfl, ?_⟩
    exact ⟨if jsTruthyStr detail then detail.getD "" else "Upload failed", rfl⟩
  | netError msg => exact ⟨rfl, rfl, rfl, rfl, msg, rfl⟩

/-- Witness for C9 at a concrete rejected submission carrying the
detail "Invalid CSV". -/
theorem c9_rejected_submission_witness :
    (handleFileUpload (.errResp (some "Invalid CSV"))).sock = none ∧
    (handleFileUpload (.errResp (some "Invalid CSV"))).wsVarSet = false ∧
    (handleFileUpload (.errResp (some "Invalid CSV"))).pollLoops = 0 ∧
    (handleFileUpload (.errResp (some "Invalid CSV"))).currentUploadTaskId = none ∧
    ∃ m, (handleFileUpload (.errResp (some "Invalid CSV"))).uploadResult
      = some (false, "Upload failed: " ++ m) :=
  c9_rejected_submission (.errResp (some "Invalid CSV"))
    (fun _ h => UploadResponse.noConfusion h)

/-- C10: the delete-all request is issued exactly when the typed
confirmation, after trimming, equals "DELETE": `performDeleteAll`
sends the request iff the trimmed input is "DELETE", and
`onDeleteAllInput` leaves the confirm button enabled (not disabled)
iff the trimmed input is "DELETE". -/
theorem c10_delete_all_guard : ∀ (input : Option String),
    (performDeleteAll input = true ↔ (input.getD "").trim = "DELETE") ∧
    (onDeleteAllInput input = false ↔ (input.getD "").trim = "DELETE") := by
  intro input
  constructor <;>
    simp [performDeleteAll, onDeleteAllInput]

end ProductImporter
